import Mathlib

/-!
# Verification of `omero-cli-transfer` (`src/omero/plugins/transfer.py`)

A shallow embedding of the transfer plugin's pure core: the identity
reconciliation algorithm `_make_image_map`, the packet extraction step
`_create_image_map`, the import loop `_import_files`, the pack-time root-kind
guard of `__pack`, and the default extraction directory computation of
`__unpack`.  Python dicts are embedded as insertion-ordered association
lists, Python strings as Lean `String` manipulated through their underlying
character lists, and raised exceptions as `Option`/error results.
-/

set_option autoImplicit false

namespace OmeroTransfer

/-! ## Python string primitives

The plugin relies on `str.split(sep)` (with the `[-1]` subscript for the
last fragment) and `int(...)` on well-formed `"Kind:<integer>"` identifiers.
We embed these over the character list of a `String`.
-/

/-- If `sep` is a leading segment of `s`, return the remainder of `s`
after it; otherwise `none`.  Helper for the `str.split` embedding. -/
def stripLead : List Char → List Char → Option (List Char)
  | [], s => some s
  | _ :: _, [] => none
  | c :: sep, x :: s => if c = x then stripLead sep s else none

/-- Fuel-driven worker for `str.split(sep)`: scan `s` left to right,
emitting the chunk accumulated in `acc` (reversed) each time a
non-overlapping occurrence of `sep` is consumed.  With `fuel ≥ s.length`
and a non-empty `sep` the fuel never runs out, since every step consumes
at least one character. -/
def splitAux (sep : List Char) : Nat → List Char → List Char → List (List Char)
  | 0, _, acc => [acc.reverse]
  | _ + 1, [], acc => [acc.reverse]
  | fuel + 1, x :: s, acc =>
    match stripLead sep (x :: s) with
    | some rest => acc.reverse :: splitAux sep fuel rest []
    | none => splitAux sep fuel s (x :: acc)

/-- Python `s.split(sep)` for a non-empty separator, on character lists.
Always returns a non-empty list of chunks. -/
def splitPy (sep s : List Char) : List (List Char) :=
  splitAux sep s.length s []

/-- Python's `lst[-1]`: the last chunk of a split result.  `str.split`
never returns an empty list, so the `[]` case is unreachable at the
call sites below. -/
def lastPart : List (List Char) → List Char
  | [] => []
  | [x] => x
  | _ :: rest => lastPart rest

/-- Whether the (non-empty) separator `sep` occurs somewhere in `s`. -/
def containsSeq (sep : List Char) : List Char → Bool
  | [] => false
  | x :: s => (stripLead sep (x :: s)).isSome || containsSeq sep s

/-- The path-separator marker token `"/./"` used by the plugin to divide
the repository-relative suffix from the absolute prefix of a path. -/
def markerL : List Char := ['/', '.', '/']

/-- `k.split("/./")[-1]`: the canonical join key used by
`_make_image_map` (transfer.py lines 269 and 273) and, identically, the
file-list entry `ann.value.split('/./')[-1]` of `_create_image_map`
(line 210). -/
def normKey (k : String) : String :=
  String.mk (lastPart (splitPy markerL k.data))

/-- Digit run to number, `('0'.toNat = 48)`; helper for the `int(...)`
embedding, meaningful on well-formed digit strings. -/
def digitsToNat (cs : List Char) : Nat :=
  cs.foldl (fun a c => a * 10 + (c.toNat - 48)) 0

/-- Python `int(s)` on a well-formed optionally-`-`-signed decimal
string. -/
def parseInt : List Char → Int
  | '-' :: rest => -(digitsToNat rest : Int)
  | cs => (digitsToNat cs : Int)

/-- `int(s.split(":")[-1])`: the trailing integer of a `"Kind:<integer>"`
identifier, as computed on annotation ids (transfer.py lines 208, 211,
213) and on sentinel namespaces (line 209). -/
def trailingInt (s : String) : Int :=
  parseInt (lastPart (splitPy [':'] s.data))

/-! ## Dict embedding

Python dicts preserve insertion order; we embed them as association
lists in that order.  `extendAt` is `defaultdict(list)`'s
`d[k].extend(v)` (a missing key materialises as `[]` first), and
`lookupD` is `defaultdict(list)` subscript read: a missing key reads as
`[]`. -/

/-- `d[k].extend(v)` on a `defaultdict(list)`. -/
def extendAt (d : List (String × List Int)) (k : String) (v : List Int) :
    List (String × List Int) :=
  match d with
  | [] => [(k, v)]
  | (k', v') :: rest =>
    if k' = k then (k', v' ++ v) :: rest else (k', v') :: extendAt rest k v

/-- `d[k]` read on a `defaultdict(list)`: `[]` when `k` is absent. -/
def lookupD (d : List (String × List Int)) (k : String) : List Int :=
  match d.find? (fun kv => kv.1 == k) with
  | some kv => kv.2
  | none => []

/-- `m[k] = v` on a plain dict: overwrite in place, append if new. -/
def insertOrUpdate (m : List (String × Int)) (k : String) (v : Int) :
    List (String × Int) :=
  match m with
  | [] => [(k, v)]
  | (k', v') :: rest =>
    if k' = k then (k, v) :: rest else (k', v') :: insertOrUpdate rest k v

/-- Plain dict lookup on the identity map. -/
def lookupI (m : List (String × Int)) (k : String) : Option Int :=
  match m.find? (fun kv => kv.1 == k) with
  | some kv => some kv.2
  | none => none

/-! ## `_make_image_map` (transfer.py lines 261-283) -/

/-- `f"Image:{n}"`. -/
def imageKey (n : Int) : String := "Image:" ++ toString n

/-- Normalisation pass of `_make_image_map` (lines 266-274): fold a
path→ids map into a `defaultdict(list)` keyed by the normalised join
key, extending in iteration order. -/
def buildNormDict (m : List (String × List Int)) : List (String × List Int) :=
  m.foldl (fun d kv => extendAt d (normKey kv.1) kv.2) []

/-- Inner pairing loop of `_make_image_map` (lines 280-282):
`for count in range(len(src_v)): imgmap[f"Image:{src_v[count]}"] = dest_v[count]`.
Indexing `dest_v[count]` past the end raises `IndexError`, embedded as
`none`. -/
def pairLists (imgmap : List (String × Int)) :
    List Int → List Int → Option (List (String × Int))
  | [], _ => some imgmap
  | _ :: _, [] => none
  | s :: srest, d :: drest =>
    pairLists (insertOrUpdate imgmap (imageKey s) d) srest drest

/-- Outer loop of `_make_image_map` (lines 277-282): for each entry of
the normalised source dict, pair its id list against the `defaultdict`
read of the normalised destination dict, accumulating into `imgmap`.
An `IndexError` from the inner loop aborts the whole call. -/
def reconcileLoop (dest_dict : List (String × List Int)) :
    List (String × List Int) → List (String × Int) → Option (List (String × Int))
  | [], imgmap => some imgmap
  | (k, sv) :: rest, imgmap =>
    match pairLists imgmap sv (lookupD dest_dict k) with
    | some imgmap' => reconcileLoop dest_dict rest imgmap'
    | none => none

/-- `_make_image_map(source_map, dest_map)`: normalise both maps, then
for each normalised source key pair the source id list positionally
against the `defaultdict` read of the destination dict.  A raised
`IndexError` is embedded as `none`. -/
def make_image_map (source_map dest_map : List (String × List Int)) :
    Option (List (String × Int)) :=
  reconcileLoop (buildNormDict dest_map) (buildNormDict source_map) []

/-! ## `_create_image_map` (transfer.py lines 204-216)

The parsed transfer graph (`ome_types` document) is embedded with just
the fields the extractor touches: the structured annotation collection
and each image's annotation-reference list. -/

/-- A structured annotation entry: identifier string `"Kind:<integer>"`,
namespace string (for sentinels: `"Image:<id>"`), value string (for
sentinels: the marker-bearing file path). -/
structure AnnotationEntry where
  id : String
  ns : String
  value : String
deriving DecidableEq

/-- An element of an image's `annotation_ref` list: carries the id of
the referenced annotation. -/
structure AnnotationRef where
  id : String
deriving DecidableEq

/-- An image record of the transfer graph, reduced to the field the
extractor mutates. -/
structure ImageRec where
  annotation_ref : List AnnotationRef
deriving DecidableEq

/-- The parsed transfer graph. -/
structure OME where
  images : List ImageRec
  structured_annotations : List AnnotationEntry
deriving DecidableEq

/-- First-occurrence worker for `list(set(filelist))`.  CPython's set
iteration order is unspecified; we fix first-occurrence order, which is
set-equal to it. -/
def dedupAux : List String → List String → List String
  | [], acc => acc.reverse
  | x :: rest, acc =>
    if acc.contains x then dedupAux rest acc else dedupAux rest (x :: acc)

/-- `list(set(l))` (transfer.py line 214), deduplicating to first
occurrences. -/
def dedupPy (l : List String) : List String := dedupAux l []

/-- Insertion step of `sorted` on an ascending list. -/
def insertSorted (n : Int) : List Int → List Int
  | [] => [n]
  | m :: rest => if n ≤ m then n :: m :: rest else m :: insertSorted n rest

/-- Python `sorted(l)` for integer lists (transfer.py lines 215 and 257),
as insertion sort. -/
def sortPy (l : List Int) : List Int := l.foldr insertSorted []

/-- Sentinel-collection loop of `_create_image_map` (lines 207-210): for
each annotation whose id has a negative trailing integer, extend
`img_map[ann.value]` with the namespace's trailing integer and append
`ann.value.split('/./')[-1]` to `filelist`. -/
def collectSentinels (anns : List AnnotationEntry) :
    List (String × List Int) × List String :=
  anns.foldl
    (fun acc ann =>
      if trailingInt ann.id < 0 then
        (extendAt acc.1 ann.value [trailingInt ann.ns], acc.2 ++ [normKey ann.value])
      else acc)
    ([], [])

/-- `_create_image_map(ome)`: collect sentinel entries into the source
path→ids map and the file list, strip annotations whose trailing
integer is not positive from the graph and from every image's
`annotation_ref` list (lines 211-213), deduplicate the file list
(line 214) and sort each id list ascending (line 215).  Returns the
mutated graph alongside `(img_map, filelist)`. -/
def create_image_map (ome : OME) :
    OME × List (String × List Int) × List String :=
  let col := collectSentinels ome.structured_annotations
  let ome' : OME :=
    { structured_annotations :=
        ome.structured_annotations.filter (fun x => 0 < trailingInt x.id),
      images :=
        ome.images.map (fun i =>
          { i with annotation_ref :=
              i.annotation_ref.filter (fun x => 0 < trailingInt x.id) }) }
  let filelist := dedupPy col.2
  let img_map := col.1.map (fun kv => (kv.1, sortPy kv.2))
  (ome', img_map, filelist)

/-! ## `_import_files` (transfer.py lines 218-233) and
`_get_image_ids` (lines 235-258) -/

/-- External collaborators of the import loop: the CLI import invocation
(`cli.invoke(['import', ...])`, result `success|failure`) and the raw
destination query for image ids by client path (the HQL projection of
`_get_image_ids`, before sorting). -/
structure ImportEnv where
  invoke : String → Bool
  query : String → List Int

/-- `os.path.join(folder, '.', filepath)` (line 223) for a relative
`filepath` and a `folder` without trailing slash: `folder ++ "/./" ++
filepath`. -/
def destPathOf (folder filepath : String) : String :=
  folder ++ "/./" ++ filepath

/-- `_get_image_ids(file_path)`: query the destination for image ids
recorded under this client path and sort them ascending (line 257). -/
def get_image_ids (env : ImportEnv) (file_path : String) : List Int :=
  sortPy (env.query file_path)

/-- `d[k] = v` on the dest map (values are id lists). -/
def insertOrUpdateL (m : List (String × List Int)) (k : String) (v : List Int) :
    List (String × List Int) :=
  match m with
  | [] => [(k, v)]
  | (k', v') :: rest =>
    if k' = k then (k, v) :: rest else (k', v') :: insertOrUpdateL rest k v

/-- One iteration of the `_import_files` loop (lines 222-232): invoke
the external import on the destination path — the invocation's result
is not inspected by the source, it is discarded — then query and record
the image ids under that path.  The second component traces the import
invocations performed, in order. -/
def importStep (env : ImportEnv) (folder : String)
    (acc : List (String × List Int) × List String) (filepath : String) :
    List (String × List Int) × List String :=
  let dest_path := destPathOf folder filepath
  let _ := env.invoke dest_path
  (insertOrUpdateL acc.1 dest_path (get_image_ids env dest_path),
   acc.2 ++ [dest_path])

/-- `_import_files(folder, filelist, ln_s)`: run the import loop over
the file list (`ln_s` only selects the CLI flags of the invocation, not
the loop structure).  Returns the destination path→ids map together
with the invocation trace. -/
def import_files (env : ImportEnv) (folder : String) (filelist : List String)
    (_ln_s : Bool) : List (String × List Int) × List String :=
  filelist.foldl (importStep env folder) ([], [])

/-! ## `__pack` (transfer.py lines 151-176) -/

/-- The pack root argument after CLI proxy resolution: an `Image`,
`Dataset` or `Project` model object, or anything else (the
`isinstance` chain's `else` branch). -/
inductive PackObject where
  | image (id : Int)
  | dataset (id : Int)
  | project (id : Int)
  | other
deriving DecidableEq

/-- The `isinstance` dispatch of `__pack` (lines 152-158), in source
order: `Image`, then `Dataset`, then `Project`; anything else has no
kind. -/
def objKind : PackObject → Option (String × Int)
  | .image i => some ("Image", i)
  | .dataset i => some ("Dataset", i)
  | .project i => some ("Project", i)
  | .other => none

/-- Abstract failure outcomes of `__pack`: the "Object is not a project,
dataset or image" early return (line 159-160), and the `IndexError`
from `self._get_path_to_repo()[0]` when no managed repository exists
(line 166). -/
inductive PackError where
  | unsupportedRootKind
  | noManagedRepository
deriving DecidableEq

/-- Observable side effects of `__pack`, in the order the source
performs them. -/
inductive PackEffect where
  | makeDirs (path : String)
  | writeXml (path : String)
  | download (id : String) (subfolder : String)
  | makeArchive (stem : String)
  | removeTree (path : String)
deriving DecidableEq

/-- External collaborators of `__pack`: the managed-repository list
(`_get_path_to_repo`) and the graph serializer `populate_xml`, which
returns the id→path dict driving `_copy_files`. -/
structure PackEnv where
  repos : List String
  populate_xml : String → Int → String → String → List (String × String)

/-- `path.split(repo)[-1][1:]` then `str(Path(rel_path).parent)`
(lines 144-145): the repository-relative parent directory of a file.
`[1:]` is `List.drop 1`; `Path.parent` of a relative path is the prefix
before the last `'/'`, or `"."` when there is none. -/
def relParent (repo path : String) : String :=
  let rel := (lastPart (splitPy repo.data path.data)).drop 1
  if rel.contains '/' then
    String.mk ((rel.reverse.dropWhile (fun c => c ≠ '/')).drop 1).reverse
  else "."

/-- `_copy_files(id_list, folder, repo)` (lines 139-148) as its effect
trace: for each id→path entry, create the relative subfolder inside the
staging folder and download the object into it. -/
def copy_files (id_list : List (String × String)) (folder repo : String) :
    List PackEffect :=
  id_list.foldl
    (fun acc kv =>
      let subfolder := folder ++ "/" ++ relParent repo kv.2
      acc ++ [.makeDirs subfolder, .download kv.1 subfolder])
    []

/-- `os.path.splitext(p)[0]` worker on the reversed character list:
drop the extension after the last `'.'` of the final path component;
`none` when there is no extension to drop.  (Matches CPython for
basenames that do not start with a dot.) -/
def dropExtRev : List Char → Option (List Char)
  | [] => none
  | c :: rest =>
    if c = '/' then none
    else if c = '.' then
      match rest with
      | [] => none
      | '/' :: _ => none
      | _ => some rest
    else dropExtRev rest

/-- `os.path.splitext(p)[0]` (transfer.py lines 173 and 182). -/
def splitextFst (s : String) : String :=
  match dropExtRev s.data.reverse with
  | some rest => String.mk rest.reverse
  | none => s

/-- `__pack(args)`: the `isinstance` guard runs before any filesystem
side effect; on a supported kind the staging folder is created, the
repository root is read (an empty repository list raises at
`self._get_path_to_repo()[0]`, after the staging `makedirs`), the graph
document is written, files are copied, the archive is built and the
staging folder removed.  Returns the effect trace and the failure, if
any. -/
def pack (env : PackEnv) (obj : PackObject) (filepath : String) :
    List PackEffect × Option PackError :=
  match objKind obj with
  | none => ([], some .unsupportedRootKind)
  | some dt =>
    let folder := filepath ++ "_folder"
    let xml_fp := folder ++ "/transfer.xml"
    match env.repos.head? with
    | none => ([.makeDirs folder], some .noManagedRepository)
    | some repo =>
      let path_id_dict := env.populate_xml dt.1 dt.2 xml_fp repo
      ([.makeDirs folder, .writeXml xml_fp] ++ copy_files path_id_dict folder repo
         ++ [.makeArchive (splitextFst filepath), .removeTree folder],
       none)

/-! ## `__unpack` default extraction directory (transfer.py lines 179-187) -/

/-- `str(Path(p).parent)` worker: drop through the first `'/'` from the
right; `none` when the path has no `'/'`. -/
def parentRev : List Char → Option (List Char)
  | [] => none
  | c :: rest => if c = '/' then some rest else parentRev rest

/-- `Path(p).parent` as a string: `"."` for a bare name, `"/"` for a
file at the root. -/
def parentPath (s : String) : String :=
  match parentRev s.data.reverse with
  | some rest => if rest = [] then "/" else String.mk rest.reverse
  | none => "."

/-- `Path(a) / b` rendered back to a string, for the relative and
root-anchored cases arising here: pathlib drops a lone `"."` left
operand and keeps an absolute `b` unchanged. -/
def pathJoin (a b : String) : String :=
  if b.data.head? = some '/' then b
  else if a = "." then b
  else if a = "/" then a ++ b
  else a ++ "/" ++ b

/-- The extraction directory of `__unpack` (lines 181-186):
`parent_folder = Path(filepath).parent`, `filename =
os.path.splitext(filepath)[0]`, and the default folder is
`parent_folder / filename`; an explicit `--output` overrides it. -/
def unpackFolder (filepath : String) (output : Option String) : String :=
  let parent_folder := parentPath filepath
  let filename := splitextFst filepath
  match output with
  | some o => o
  | none => pathJoin parent_folder filename

/-! ## Helper notions and lemmas for the reconciliation claims -/

/-- The entries the inner pairing loop writes for two id lists, in
positional order: `("Image:<sv i>", dv i)` up to the shorter length. -/
def zipImages (sv dv : List Int) : List (String × Int) :=
  (sv.zip dv).map (fun p => (imageKey p.1, p.2))

/-- Fold a batch of dict writes over `insertOrUpdate`. -/
def insertAll (m : List (String × Int)) (ps : List (String × Int)) :
    List (String × Int) :=
  ps.foldl (fun acc p => insertOrUpdate acc p.1 p.2) m

lemma pairLists_eq_insertAll :
    ∀ (sv dv : List Int) (m : List (String × Int)), sv.length ≤ dv.length →
      pairLists m sv dv = some (insertAll m (zipImages sv dv)) := by
  intro sv
  induction sv with
  | nil => intro dv m _; simp [pairLists, insertAll, zipImages]
  | cons s srest ih =>
    intro dv m h
    cases dv with
    | nil => simp at h
    | cons d drest =>
      rw [pairLists]
      rw [ih drest (insertOrUpdate m (imageKey s) d) (by simpa using h)]
      simp [zipImages, insertAll]

lemma pairLists_eq_none :
    ∀ (sv dv : List Int) (m : List (String × Int)), dv.length < sv.length →
      pairLists m sv dv = none := by
  intro sv
  induction sv with
  | nil => intro dv m h; simp at h
  | cons s srest ih =>
    intro dv m h
    cases dv with
    | nil => rfl
    | cons d drest =>
      rw [pairLists]
      exact ih drest _ (by simpa using h)

lemma buildNormDict_singleton (k : String) (v : List Int) :
    buildNormDict [(k, v)] = [(normKey k, v)] := rfl

lemma buildNormDict_pair_same (k₁ k₂ : String) (v₁ v₂ : List Int)
    (h : normKey k₁ = normKey k₂) :
    buildNormDict [(k₁, v₁), (k₂, v₂)] = [(normKey k₁, v₁ ++ v₂)] := by
  simp [buildNormDict, extendAt, ← h]

lemma lookupD_head (k : String) (v : List Int) (rest : List (String × List Int)) :
    lookupD ((k, v) :: rest) k = v := by
  simp [lookupD, List.find?]

lemma reconcileLoop_single (d : List (String × List Int)) (k : String) (v : List Int) :
    reconcileLoop d [(k, v)] [] = pairLists [] v (lookupD d k) := by
  cases h : pairLists ([] : List (String × Int)) v (lookupD d k) <;>
    simp [reconcileLoop, h]

lemma make_image_map_single_src (k : String) (sv : List Int)
    (dm : List (String × List Int)) :
    make_image_map [(k, sv)] dm
      = pairLists [] sv (lookupD (buildNormDict dm) (normKey k)) := by
  rw [make_image_map, buildNormDict_singleton, reconcileLoop_single]

lemma make_image_map_single (k : String) (sv dv : List Int) :
    make_image_map [(k, sv)] [(k, dv)] = pairLists [] sv dv := by
  rw [make_image_map_single_src, buildNormDict_singleton, lookupD_head]

/-! ## C1: key normalisation by the `"/./"` marker -/

lemma splitAux_no_occurrence (sep : List Char) :
    ∀ (s : List Char) (fuel : Nat) (acc : List Char), s.length ≤ fuel →
      containsSeq sep s = false → splitAux sep fuel s acc = [acc.reverse ++ s] := by
  intro s
  induction s with
  | nil => intro fuel acc _ _; cases fuel <;> simp [splitAux]
  | cons x s ih =>
    intro fuel acc hlen hns
    cases fuel with
    | zero => simp at hlen
    | succ f =>
      rw [containsSeq] at hns
      obtain ⟨h1, h2⟩ := Bool.or_eq_false_iff.mp hns
      cases hstrip : stripLead sep (x :: s) with
      | some r => rw [hstrip] at h1; simp at h1
      | none =>
        rw [splitAux, hstrip]
        rw [ih f (x :: acc) (by simpa using hlen) h2]
        simp

lemma normKey_of_no_marker (k : String) (h : containsSeq markerL k.data = false) :
    normKey k = k := by
  rw [normKey, splitPy, splitAux_no_occurrence markerL k.data k.data.length [] le_rfl h]
  rfl

/-- C1: the claim asserts that `"/repo/2020/01/img.tif"` (no marker
occurrence) and `"/staging/./img.tif"` normalise to the same join key
`"img.tif"`.  In the code, `split("/./")[-1]` leaves a marker-free key
unchanged, so the source key normalises to itself, the two keys differ,
and reconciling them raises `IndexError` (embedded `none`) instead of
pairing 501 with 9001. -/
theorem c1_counterexample :
    normKey "/repo/2020/01/img.tif" = "/repo/2020/01/img.tif" ∧
    normKey "/repo/2020/01/img.tif" ≠ "img.tif" ∧
    normKey "/staging/./img.tif" = "img.tif" ∧
    make_image_map [("/repo/2020/01/img.tif", [501])] [("/staging/./img.tif", [9001])]
      = none := by
  refine ⟨by decide, by decide, by decide, by decide⟩

/-- C1 (amended): `reconcile` normalises a key to the suffix after the
last occurrence of the marker token `"/./"` when the marker occurs in
the key, and to the key itself otherwise.  A source key that carries
the marker, such as `"/repo/2020/01/./img.tif"`, and the destination
key `"/staging/./img.tif"` normalise to the same join key `"img.tif"`
and are treated as the same file. -/
theorem c1_amended_marker_normalization :
    (∀ k : String, containsSeq markerL k.data = false → normKey k = k) ∧
    normKey "/repo/2020/01/./img.tif" = "img.tif" ∧
    normKey "/staging/./img.tif" = "img.tif" ∧
    make_image_map [("/repo/2020/01/./img.tif", [501])] [("/staging/./img.tif", [9001])]
      = some [("Image:501", 9001)] :=
  ⟨normKey_of_no_marker, by decide, by decide, by decide⟩

/-! ## C2: positional pairing of equal-length lists -/

/-- C2: for a matched normalised key whose source and destination id
lists have equal length, `_make_image_map` pairs the two lists
positionally, writing `"Image:<sv i>" ↦ dv i` for every position. -/
theorem c2_equal_length_positional_pairing (k : String) (sv dv : List Int)
    (h : sv.length = dv.length) :
    make_image_map [(k, sv)] [(k, dv)] = some (insertAll [] (zipImages sv dv)) := by
  rw [make_image_map_single]
  exact pairLists_eq_insertAll sv dv [] (le_of_eq h)

/-- C2 witness: the spec's single-image and multi-image scenarios,
obtained from `c2_equal_length_positional_pairing` at the concrete
maps. -/
theorem c2_witness :
    make_image_map [("img.tif", [501])] [("img.tif", [9001])]
      = some [("Image:501", 9001)] ∧
    make_image_map [("f.tif", [501, 502])] [("f.tif", [9001, 9002])]
      = some [("Image:501", 9001), ("Image:502", 9002)] :=
  ⟨(c2_equal_length_positional_pairing "img.tif" [501] [9001] rfl).trans (by decide),
   (c2_equal_length_positional_pairing "f.tif" [501, 502] [9001, 9002] rfl).trans
     (by decide)⟩

/-! ## C3: source key absent from the destination map -/

/-- C3: the claim asserts that a normalised key present only in the
source map contributes no entries and `reconcile` does not raise.  In
the code, `dest_dict[src_k]` on the `defaultdict` yields `[]` and
`dest_v[count]` then raises `IndexError` (embedded `none`): the call
fails instead of omitting the key. -/
theorem c3_counterexample :
    make_image_map [("img.tif", [501])] [("other.tif", [9001])] = none := by decide

/-- C3 (amended): for a normalised key present in the source map whose
normalised destination lookup is empty (in particular, absent from the
destination map), `reconcile` raises `IndexError` whenever the source
id list is non-empty; only an empty source id list contributes no
entries without raising. -/
theorem c3_amended_unmatched_source_key (k : String) (sv : List Int)
    (dm : List (String × List Int))
    (habs : lookupD (buildNormDict dm) (normKey k) = []) :
    (sv ≠ [] → make_image_map [(k, sv)] dm = none) ∧
    make_image_map [(k, [])] dm = some [] := by
  constructor
  · intro hne
    rw [make_image_map_single_src, habs]
    cases sv with
    | nil => exact absurd rfl hne
    | cons s rest => rfl
  · rw [make_image_map_single_src, habs]
    rfl

/-- C3 witness: `c3_amended_unmatched_source_key` at the concrete maps
of the counterexample. -/
theorem c3_witness :
    make_image_map [("img.tif", [501])] [("other.tif", [9001])] = none ∧
    make_image_map [("img.tif", ([] : List Int))] [("other.tif", [9001])] = some [] :=
  ⟨(c3_amended_unmatched_source_key "img.tif" [501] [("other.tif", [9001])]
      (by decide)).1 (by decide),
   (c3_amended_unmatched_source_key "img.tif" [501] [("other.tif", [9001])]
      (by decide)).2⟩

/-! ## C4: matched key with lists of different lengths -/

/-- C4: the claim asserts that for a matched key with lists of unequal
length, the algorithm pairs up to the shorter length and never raises.
In the code the loop runs over the length of the source list, so when
the source list is the longer one, `dest_v[count]` raises `IndexError`
(embedded `none`). -/
theorem c4_counterexample :
    make_image_map [("f.tif", [501, 502])] [("f.tif", [9001])] = none := by decide

/-- C4 (amended): for a matched normalised key the loop pairs up to the
length of the source list: when the destination list is at least as
long, the pairing succeeds and any extra destination identifiers are
silently dropped; when the source list is strictly longer, `reconcile`
raises `IndexError` instead of truncating. -/
theorem c4_amended_truncation_vs_error (k : String) (sv dv : List Int) :
    (sv.length ≤ dv.length →
      make_image_map [(k, sv)] [(k, dv)] = some (insertAll [] (zipImages sv dv))) ∧
    (dv.length < sv.length → make_image_map [(k, sv)] [(k, dv)] = none) := by
  constructor
  · intro h
    rw [make_image_map_single]
    exact pairLists_eq_insertAll sv dv [] h
  · intro h
    rw [make_image_map_single]
    exact pairLists_eq_none sv dv [] h

/-- C4 witness: `c4_amended_truncation_vs_error` at concrete maps —
an extra destination id is dropped, an extra source id raises. -/
theorem c4_witness :
    make_image_map [("f.tif", [501])] [("f.tif", [9001, 9002])]
      = some [("Image:501", 9001)] ∧
    make_image_map [("f.tif", [501, 502])] [("f.tif", [9001])] = none :=
  ⟨((c4_amended_truncation_vs_error "f.tif" [501] [9001, 9002]).1
      (by decide)).trans (by decide),
   (c4_amended_truncation_vs_error "f.tif" [501, 502] [9001]).2 (by decide)⟩

/-! ## C5: raw keys that share a normalised join key -/

/-- C5: when two distinct raw source keys normalise to the same join
key, their id lists are concatenated in map-iteration order with no
re-sort, and the positional pairing for that key runs over the
concatenation. -/
theorem c5_duplicate_join_key_concatenation (k₁ k₂ : String) (v₁ v₂ : List Int)
    (dm : List (String × List Int)) (_hne : k₁ ≠ k₂)
    (hnorm : normKey k₁ = normKey k₂) :
    buildNormDict [(k₁, v₁), (k₂, v₂)] = [(normKey k₁, v₁ ++ v₂)] ∧
    make_image_map [(k₁, v₁), (k₂, v₂)] dm
      = pairLists [] (v₁ ++ v₂) (lookupD (buildNormDict dm) (normKey k₁)) := by
  refine ⟨buildNormDict_pair_same k₁ k₂ v₁ v₂ hnorm, ?_⟩
  rw [make_image_map, buildNormDict_pair_same k₁ k₂ v₁ v₂ hnorm, reconcileLoop_single]

/-- C5 witness: `c5_duplicate_join_key_concatenation` at two raw keys
sharing the join key `"f.tif"`; the merged list `[502, 501]` is used in
concatenation order, which is not ascending order. -/
theorem c5_witness :
    make_image_map [("a/./f.tif", [502]), ("b/./f.tif", [501])] [("f.tif", [9001, 9002])]
      = some [("Image:502", 9001), ("Image:501", 9002)] ∧
    sortPy [502, 501] ≠ [502, 501] :=
  ⟨((c5_duplicate_join_key_concatenation "a/./f.tif" "b/./f.tif" [502] [501]
      [("f.tif", [9001, 9002])] (by decide) (by decide)).2).trans (by decide),
   by decide⟩

/-! ## C6: sentinel stripping leaves only real annotations -/

/-- C6: after `_create_image_map`, the graph's annotation collection
holds only entries with positive trailing integer (so every sentinel,
trailing integer negative, is absent); every annotation with positive
trailing integer survives with unchanged content; every image record
survives (same count) and its annotation-reference list holds only
references with positive trailing integer. -/
theorem c6_sentinel_stripping (ome : OME) :
    (∀ a ∈ (create_image_map ome).1.structured_annotations, 0 < trailingInt a.id) ∧
    (∀ a ∈ ome.structured_annotations, 0 < trailingInt a.id →
      a ∈ (create_image_map ome).1.structured_annotations) ∧
    (∀ i ∈ (create_image_map ome).1.images, ∀ r ∈ i.annotation_ref,
      0 < trailingInt r.id) ∧
    (create_image_map ome).1.images.length = ome.images.length := by
  refine ⟨?_, ?_, ?_, ?_⟩
  · intro a ha
    simp only [create_image_map, List.mem_filter, decide_eq_true_eq] at ha
    exact ha.2
  · intro a ha hpos
    simp only [create_image_map, List.mem_filter, decide_eq_true_eq]
    exact ⟨ha, hpos⟩
  · intro i hi r hr
    simp only [create_image_map, List.mem_map] at hi
    obtain ⟨i₀, _, rfl⟩ := hi
    simp only [List.mem_filter, decide_eq_true_eq] at hr
    exact hr.2
  · simp [create_image_map]

/-- C6 witness: `c6_sentinel_stripping` at a concrete graph with one
sentinel and one real annotation — the real annotation survives
extraction unchanged. -/
theorem c6_witness :
    (⟨"Annotation:5", "ns0", "stuff"⟩ : AnnotationEntry) ∈
      (create_image_map
        ⟨[⟨[⟨"Annotation:-1"⟩, ⟨"Annotation:5"⟩]⟩],
         [⟨"Annotation:-1", "Image:501", "/repo/./f.tif"⟩,
          ⟨"Annotation:5", "ns0", "stuff"⟩]⟩).1.structured_annotations :=
  (c6_sentinel_stripping
    ⟨[⟨[⟨"Annotation:-1"⟩, ⟨"Annotation:5"⟩]⟩],
     [⟨"Annotation:-1", "Image:501", "/repo/./f.tif"⟩,
      ⟨"Annotation:5", "ns0", "stuff"⟩]⟩).2.1
    ⟨"Annotation:5", "ns0", "stuff"⟩ (by decide) (by decide)

/-! ## C7: deduplicated file list, one import per distinct file -/

lemma mem_dedupAux (l : List String) :
    ∀ (acc : List String) (y : String), y ∈ dedupAux l acc ↔ y ∈ acc ∨ y ∈ l := by
  induction l with
  | nil => intro acc y; simp [dedupAux]
  | cons x rest ih =>
    intro acc y
    rw [dedupAux]
    by_cases hx : acc.contains x
    · rw [if_pos hx, ih]
      have hmem : x ∈ acc := by simpa using hx
      constructor
      · rintro (h | h)
        · exact Or.inl h
        · exact Or.inr (List.mem_cons_of_mem _ h)
      · rintro (h | h)
        · exact Or.inl h
        · rcases List.mem_cons.mp h with rfl | h
          · exact Or.inl hmem
          · exact Or.inr h
    · rw [if_neg hx, ih]
      simp [List.mem_cons]
      tauto

lemma nodup_dedupAux (l : List String) :
    ∀ (acc : List String), acc.Nodup → (dedupAux l acc).Nodup := by
  induction l with
  | nil => intro acc h; simpa [dedupAux, List.nodup_reverse] using h
  | cons x rest ih =>
    intro acc h
    rw [dedupAux]
    by_cases hx : acc.contains x
    · rw [if_pos hx]; exact ih acc h
    · rw [if_neg hx]
      refine ih (x :: acc) (List.nodup_cons.mpr ⟨?_, h⟩)
      simpa using hx

lemma nodup_dedupPy (l : List String) : (dedupPy l).Nodup :=
  nodup_dedupAux l [] List.nodup_nil

lemma mem_dedupPy (l : List String) (y : String) : y ∈ dedupPy l ↔ y ∈ l := by
  rw [dedupPy, mem_dedupAux]
  simp

lemma collectSentinels_snd_aux (anns : List AnnotationEntry) :
    ∀ (m : List (String × List Int)) (fl : List String),
      (anns.foldl
        (fun acc ann =>
          if trailingInt ann.id < 0 then
            (extendAt acc.1 ann.value [trailingInt ann.ns],
             acc.2 ++ [normKey ann.value])
          else acc)
        (m, fl)).2
      = fl ++ (anns.filter (fun a => trailingInt a.id < 0)).map
          (fun a => normKey a.value) := by
  induction anns with
  | nil => intro m fl; simp
  | cons a anns ih =>
    intro m fl
    by_cases ha : trailingInt a.id < 0
    · simp only [List.foldl_cons, if_pos ha]
      rw [ih]
      simp [List.filter_cons, ha]
    · simp only [List.foldl_cons, if_neg ha]
      rw [ih]
      simp [List.filter_cons, ha]

lemma collectSentinels_snd (anns : List AnnotationEntry) :
    (collectSentinels anns).2
      = (anns.filter (fun a => trailingInt a.id < 0)).map (fun a => normKey a.value) := by
  simpa using collectSentinels_snd_aux anns [] []

lemma create_image_map_filelist (ome : OME) :
    (create_image_map ome).2.2
      = dedupPy ((ome.structured_annotations.filter
          (fun a => trailingInt a.id < 0)).map (fun a => normKey a.value)) := by
  rw [create_image_map]
  simp [collectSentinels_snd]

lemma import_files_trace_aux (env : ImportEnv) (folder : String)
    (fl : List String) :
    ∀ (acc : List (String × List Int) × List String),
      (fl.foldl (importStep env folder) acc).2 = acc.2 ++ fl.map (destPathOf folder) := by
  induction fl with
  | nil => intro acc; simp
  | cons f fl ih =>
    intro acc
    rw [List.foldl_cons, ih]
    simp [importStep]

lemma import_files_trace (env : ImportEnv) (folder : String)
    (filelist : List String) (ln_s : Bool) :
    (import_files env folder filelist ln_s).2 = filelist.map (destPathOf folder) := by
  rw [import_files, import_files_trace_aux]
  simp

lemma destPathOf_injective (folder : String) :
    Function.Injective (destPathOf folder) := by
  intro a b h
  have hd := congrArg String.data h
  simp only [destPathOf, String.data_append, List.append_assoc] at hd
  exact String.ext (List.append_cancel_left (List.append_cancel_left hd))

/-- C7: the file list produced by extraction has no duplicates, its
members are exactly the marker-relative paths carried by sentinel
values, and the import loop performs exactly one import invocation per
entry of the file list — so one per distinct file, not one per image,
and the invocation trace itself repeats no destination path. -/
theorem c7_dedup_filelist_single_import (ome : OME) (env : ImportEnv)
    (folder : String) (ln_s : Bool) :
    ((create_image_map ome).2.2).Nodup ∧
    (∀ p, p ∈ (create_image_map ome).2.2 ↔
      ∃ a, a ∈ ome.structured_annotations ∧ trailingInt a.id < 0 ∧ normKey a.value = p) ∧
    (import_files env folder (create_image_map ome).2.2 ln_s).2
      = ((create_image_map ome).2.2).map (destPathOf folder) ∧
    ((import_files env folder (create_image_map ome).2.2 ln_s).2).Nodup := by
  have hnodup : ((create_image_map ome).2.2).Nodup := by
    rw [create_image_map_filelist]; exact nodup_dedupPy _
  refine ⟨hnodup, ?_, import_files_trace env folder _ ln_s, ?_⟩
  · intro p
    rw [create_image_map_filelist, mem_dedupPy]
    simp only [List.mem_map, List.mem_filter, decide_eq_true_eq]
    constructor
    · rintro ⟨a, ⟨ha, hneg⟩, hp⟩
      exact ⟨a, ha, hneg, hp⟩
    · rintro ⟨a, ha, hneg, hp⟩
      exact ⟨a, ⟨ha, hneg⟩, hp⟩
  · rw [import_files_trace env folder _ ln_s]
    exact hnodup.map (destPathOf_injective folder)

/-- C7 witness: extraction of a concrete graph with two sentinels on
the same file yields the singleton file list, and the import loop
invokes the import once. -/
theorem c7_witness :
    (create_image_map
      ⟨[], [⟨"Annotation:-1", "Image:501", "/repo/./f.tif"⟩,
            ⟨"Annotation:-2", "Image:502", "/repo/./f.tif"⟩]⟩).2.2 = ["f.tif"] ∧
    (import_files ⟨fun _ => true, fun _ => [9001, 9002]⟩ "/out"
      (create_image_map
        ⟨[], [⟨"Annotation:-1", "Image:501", "/repo/./f.tif"⟩,
              ⟨"Annotation:-2", "Image:502", "/repo/./f.tif"⟩]⟩).2.2 false).2
      = ["/out/./f.tif"] :=
  ⟨by decide,
   ((c7_dedup_filelist_single_import
      ⟨[], [⟨"Annotation:-1", "Image:501", "/repo/./f.tif"⟩,
            ⟨"Annotation:-2", "Image:502", "/repo/./f.tif"⟩]⟩
      ⟨fun _ => true, fun _ => [9001, 9002]⟩ "/out" false).2.2.1).trans (by decide)⟩

/-! ## C8: behaviour of the import loop under a failing invocation -/

/-- Plain lookup on the destination path→ids map, for stating what the
loop records. -/
def lookupL (m : List (String × List Int)) (k : String) : Option (List Int) :=
  match m.find? (fun kv => kv.1 == k) with
  | some kv => some kv.2
  | none => none

lemma lookupL_insertOrUpdateL_self (m : List (String × List Int)) (k : String)
    (v : List Int) : lookupL (insertOrUpdateL m k v) k = some v := by
  induction m with
  | nil => simp [insertOrUpdateL, lookupL, List.find?]
  | cons kv rest ih =>
    obtain ⟨k', v'⟩ := kv
    rw [insertOrUpdateL]
    by_cases hk : k' = k
    · rw [if_pos hk]
      simp [lookupL, List.find?]
    · rw [if_neg hk]
      rw [lookupL, List.find?]
      have : (k' == k) = false := by simpa using hk
      rw [this]
      exact ih

lemma lookupL_insertOrUpdateL_other (m : List (String × List Int)) (k k' : String)
    (v : List Int) (h : k' ≠ k) :
    lookupL (insertOrUpdateL m k v) k' = lookupL m k' := by
  induction m with
  | nil =>
    rw [insertOrUpdateL, lookupL, List.find?]
    have : (k == k') = false := by simpa using (Ne.symm h)
    rw [this]
    rfl
  | cons kv rest ih =>
    obtain ⟨k₀, v₀⟩ := kv
    rw [insertOrUpdateL]
    by_cases hk : k₀ = k
    · rw [if_pos hk]
      subst hk
      have hne : (k₀ == k') = false := by
        simpa using (Ne.symm h)
      rw [lookupL, List.find?, hne, lookupL, List.find?, hne]
    · rw [if_neg hk]
      by_cases hk' : k₀ = k'
      · subst hk'
        rw [lookupL, List.find?, lookupL, List.find?]
        simp
      · have hne : (k₀ == k') = false := by simpa using hk'
        rw [lookupL, List.find?, hne, lookupL, List.find?, hne]
        exact ih

lemma import_loop_lookup_preserve (env : ImportEnv) (folder : String)
    (fl : List String) :
    ∀ (acc : List (String × List Int) × List String) (dp : String),
      lookupL acc.1 dp = some (get_image_ids env dp) →
      lookupL (fl.foldl (importStep env folder) acc).1 dp
        = some (get_image_ids env dp) := by
  induction fl with
  | nil => intro acc dp h; exact h
  | cons f fl ih =>
    intro acc dp h
    rw [List.foldl_cons]
    refine ih _ dp ?_
    rw [importStep]
    by_cases hdp : destPathOf folder f = dp
    · rw [show (insertOrUpdateL acc.1 (destPathOf folder f)
          (get_image_ids env (destPathOf folder f)), acc.2 ++ [destPathOf folder f]).1
          = insertOrUpdateL acc.1 (destPathOf folder f)
              (get_image_ids env (destPathOf folder f)) from rfl]
      rw [hdp, lookupL_insertOrUpdateL_self]
    · rw [show (insertOrUpdateL acc.1 (destPathOf folder f)
          (get_image_ids env (destPathOf folder f)), acc.2 ++ [destPathOf folder f]).1
          = insertOrUpdateL acc.1 (destPathOf folder f)
              (get_image_ids env (destPathOf folder f)) from rfl]
      rw [lookupL_insertOrUpdateL_other _ _ _ _ (fun he => hdp he.symm)]
      exact h

lemma import_loop_lookup (env : ImportEnv) (folder : String) (fl : List String) :
    ∀ (acc : List (String × List Int) × List String) (f : String), f ∈ fl →
      lookupL (fl.foldl (importStep env folder) acc).1 (destPathOf folder f)
        = some (get_image_ids env (destPathOf folder f)) := by
  induction fl with
  | nil => intro acc f h; simp at h
  | cons x fl ih =>
    intro acc f hf
    rcases List.mem_cons.mp hf with rfl | hf
    · rw [List.foldl_cons]
      refine import_loop_lookup_preserve env folder fl _ _ ?_
      rw [importStep]
      exact lookupL_insertOrUpdateL_self _ _ _
    · rw [List.foldl_cons]
      exact ih _ f hf

/-- C8: the claim asserts that a failing import invocation makes
`importAll` fail and abort, importing no further files.  In the code
the invocation's result is never read: with an invocation that fails on
every path, both files are still imported (the trace covers both) and
both are recorded in the destination map. -/
theorem c8_counterexample :
    (fun _ => false : String → Bool) "/out/./a.tif" = false ∧
    import_files ⟨fun _ => false, fun _ => []⟩ "/out" ["a.tif", "b.tif"] false
      = ([("/out/./a.tif", []), ("/out/./b.tif", [])],
         ["/out/./a.tif", "/out/./b.tif"]) :=
  ⟨rfl, by decide⟩

/-- C8 (amended): `importAll` never inspects the result of an import
invocation: the loop always performs exactly one invocation per listed
file, in list order, regardless of failures; every listed file is
recorded in the destination map with whatever ids the destination query
returns; and the returned value does not depend on the invocation
results at all. -/
theorem c8_amended_failures_ignored (env : ImportEnv) (folder : String)
    (filelist : List String) (ln_s : Bool) :
    (import_files env folder filelist ln_s).2 = filelist.map (destPathOf folder) ∧
    (∀ f, f ∈ filelist →
      lookupL (import_files env folder filelist ln_s).1 (destPathOf folder f)
        = some (get_image_ids env (destPathOf folder f))) ∧
    (∀ invoke' : String → Bool,
      import_files ⟨invoke', env.query⟩ folder filelist ln_s
        = import_files env folder filelist ln_s) := by
  refine ⟨import_files_trace env folder filelist ln_s, ?_, ?_⟩
  · intro f hf
    rw [import_files]
    exact import_loop_lookup env folder filelist _ f hf
  · intro invoke'
    rfl

/-- C8 witness: `c8_amended_failures_ignored` where every invocation
fails — the file is nonetheless recorded with the queried ids. -/
theorem c8_witness :
    lookupL (import_files ⟨fun _ => false, fun _ => [7]⟩ "/out"
      ["a.tif", "b.tif"] false).1 "/out/./a.tif" = some [7] :=
  ((c8_amended_failures_ignored ⟨fun _ => false, fun _ => [7]⟩ "/out"
      ["a.tif", "b.tif"] false).2.1 "a.tif" (by decide)).trans (by decide)

/-! ## C9: unsupported root kind fails before any I/O -/

/-- C9: for a root object that is not an `Image`, `Dataset` or
`Project` (the `isinstance` chain recognises nothing), `pack` fails
with the unsupported-root-kind outcome and its effect trace is empty:
no staging directory, no graph document, no copy, no archive. -/
theorem c9_unsupported_root_kind (env : PackEnv) (filepath : String)
    (obj : PackObject) (h : objKind obj = none) :
    pack env obj filepath = ([], some .unsupportedRootKind) := by
  cases obj with
  | other => rfl
  | image i => simp [objKind] at h
  | dataset i => simp [objKind] at h
  | project i => simp [objKind] at h

/-- C9 witness: `c9_unsupported_root_kind` at a concrete environment
and the unrecognised root object. -/
theorem c9_witness :
    pack ⟨["/OMERO/ManagedRepository"], fun _ _ _ _ => []⟩ PackObject.other
      "pack.zip" = ([], some .unsupportedRootKind) :=
  c9_unsupported_root_kind ⟨["/OMERO/ManagedRepository"], fun _ _ _ _ => []⟩
    "pack.zip" PackObject.other rfl

/-! ## C10: default extraction directory of `unpack` -/

lemma parentRev_eq_none (l : List Char) (h : '/' ∉ l) : parentRev l = none := by
  induction l with
  | nil => rfl
  | cons c rest ih =>
    rw [parentRev,
      if_neg (fun hc => h (by rw [← hc]; exact List.mem_cons_self c rest))]
    exact ih (fun hm => h (List.mem_cons_of_mem _ hm))

lemma parentPath_of_no_slash (s : String) (h : '/' ∉ s.data) : parentPath s = "." := by
  rw [parentPath, parentRev_eq_none _ (by simpa using h)]

lemma pathJoin_dot (b : String) : pathJoin "." b = b := by
  by_cases hb : b.data.head? = some '/' <;> simp [pathJoin, hb]

/-- C10: the claim asserts that `"dir/pack.zip"` extracts by default
into the sibling directory `"dir/pack"`.  The code joins the archive's
parent directory with `os.path.splitext` of the *full* archive path, so
the default directory is `"dir/dir/pack"`, not `"dir/pack"`. -/
theorem c10_counterexample :
    unpackFolder "dir/pack.zip" none = "dir/dir/pack" ∧
    "dir/dir/pack" ≠ "dir/pack" :=
  ⟨by decide, by decide⟩

/-- C10 (amended): with no output directory given, the archive is
extracted into `Path(filepath).parent / os.path.splitext(filepath)[0]`,
where the stem keeps its leading directories; this equals the sibling
stem directory exactly when the archive path has no directory component
(e.g. `"pack.zip"` extracts into `"pack"`, while `"dir/pack.zip"`
extracts into `"dir/dir/pack"`).  An explicit output directory is used
as given. -/
theorem c10_amended_default_output_dir :
    (∀ filepath : String, '/' ∉ filepath.data →
      unpackFolder filepath none = splitextFst filepath) ∧
    unpackFolder "pack.zip" none = "pack" ∧
    unpackFolder "dir/pack.zip" none = "dir/dir/pack" ∧
    (∀ filepath out : String, unpackFolder filepath (some out) = out) := by
  refine ⟨?_, by decide, by decide, fun _ _ => rfl⟩
  intro fp h
  show pathJoin (parentPath fp) (splitextFst fp) = splitextFst fp
  rw [parentPath_of_no_slash fp h, pathJoin_dot]

/-- C10 witness: `c10_amended_default_output_dir` at an archive in the
current working directory. -/
theorem c10_witness :
    unpackFolder "archive.zip" none = splitextFst "archive.zip" :=
  c10_amended_default_output_dir.1 "archive.zip" (by decide)

end OmeroTransfer
